import Mathlib

/-!
# StellarSolver: parameters and the SextractorSolver base class

A shallow embedding of `stellarsolver/parameters.h` and
`stellarsolver/sextractorsolver.h`.

C++ `double` values are embedded in an arbitrary field `α` (the theorems
instantiate it with `ℚ` or `ℝ`), so every statement below is about exact
arithmetic.  The C library functions `log` and `atan` and the constant `π`
are passed to the definitions that call them.  An enumeration is an inductive
type with the enumerators of the source, so a `default` branch of a `switch`
appears only where some enumerator has no `case` of its own.
-/

namespace SSolver

/-! ## Enumerations of `parameters.h` -/

/-- The shape used for source extraction (`enum Shape`). -/
inductive Shape where
  | SHAPE_AUTO
  | SHAPE_CIRCLE
  | SHAPE_ELLIPSE
  deriving DecidableEq, Repr

/-- The units used by astrometry.net for the scale (`ScaleUnits`). -/
inductive ScaleUnits where
  | DEG_WIDTH
  | ARCMIN_WIDTH
  | ARCSEC_PER_PIX
  | FOCAL_MM
  deriving DecidableEq, Repr

/-- The operations that the solver can do (`ProcessType`). -/
inductive ProcessType where
  | EXTRACT
  | EXTRACT_WITH_HFR
  | SOLVE
  deriving DecidableEq, Repr

/-- The source extractor in use (`ExtractorType`). -/
inductive ExtractorType where
  | EXTRACTOR_INTERNAL
  | EXTRACTOR_EXTERNAL
  | EXTRACTOR_BUILTIN
  deriving DecidableEq, Repr

/-- The solver in use (`SolverType`). -/
inductive SolverType where
  | SOLVER_STELLARSOLVER
  | SOLVER_LOCALASTROMETRY
  | SOLVER_ASTAP
  | SOLVER_ONLINEASTROMETRY
  deriving DecidableEq, Repr

/-- The algorithms used for parallel solving (`MultiAlgo`). -/
inductive MultiAlgo where
  | NOT_MULTI
  | MULTI_SCALES
  | MULTI_DEPTHS
  | MULTI_AUTO
  deriving DecidableEq, Repr

/-- The log level of StellarSolver (`SSolverLogLevel`). -/
inductive SSolverLogLevel where
  | LOG_OFF
  | LOG_NORMAL
  | LOG_VERBOSE
  deriving DecidableEq, Repr

/-- The astrometry.net log level (`enum logging_level`). -/
inductive logging_level where
  | LOG_NONE
  | LOG_ERROR
  | LOG_MSG
  | LOG_VERB
  | LOG_ALL
  deriving DecidableEq, Repr

/-- The string for the Sextractor setting of the flux shape (`getShapeString`). -/
def getShapeString (shape : Shape) : String :=
  match shape with
  | .SHAPE_AUTO => "Auto"
  | .SHAPE_CIRCLE => "Circle"
  | .SHAPE_ELLIPSE => "Ellipse"

/-- The scale unit string for astrometry.net input (the free function
`getScaleUnitString`). -/
def getScaleUnitString (scaleunit : ScaleUnits) : String :=
  match scaleunit with
  | .DEG_WIDTH => "degwidth"
  | .ARCMIN_WIDTH => "arcminwidth"
  | .ARCSEC_PER_PIX => "arcsecperpix"
  | .FOCAL_MM => "focalmm"

/-- The string explaining the command that is running (`getCommandString`): the
extractor, then the process, and when solving the solver as well. -/
def getCommandString (processType : ProcessType) (m_ExtractorType : ExtractorType)
    (solverType : SolverType) : String :=
  let commandString := ""
  let commandString := commandString ++
    (match m_ExtractorType with
      | .EXTRACTOR_INTERNAL => "Internal "
      | .EXTRACTOR_EXTERNAL => "External "
      | .EXTRACTOR_BUILTIN => "Built In ")
  let commandString := commandString ++
    (match processType with
      | .EXTRACT => "Extractor "
      | .EXTRACT_WITH_HFR => "Extractor w/HFR "
      | .SOLVE => "Extractor w/ ")
  if processType = .SOLVE then
    commandString ++
      (match solverType with
        | .SOLVER_STELLARSOLVER => "StellarSolver "
        | .SOLVER_LOCALASTROMETRY => "local solver "
        | .SOLVER_ASTAP => "local ASTAP "
        | .SOLVER_ONLINEASTROMETRY => "online solver ")
  else commandString

/-- The string for the parallel solving algorithm in use.  The `switch` of the
source has the cases `NOT_MULTI`, `MULTI_SCALES` and `MULTI_DEPTHS`; every other
value takes the `default` branch. -/
def getMultiAlgoString (multi : MultiAlgo) : String :=
  match multi with
  | .NOT_MULTI => "None"
  | .MULTI_SCALES => "Scales"
  | .MULTI_DEPTHS => "Depths"
  | _ => ""

/-- The string for the astrometry.net log level (`getLogLevelString`). -/
def getLogLevelString (logLevel : logging_level) : String :=
  match logLevel with
  | .LOG_NONE => "None"
  | .LOG_ERROR => "Error"
  | .LOG_MSG => "Message"
  | .LOG_VERB => "Verbose"
  | .LOG_ALL => "All"

/-! ## `class Parameters` -/

/-- The fields of `class Parameters`, in the order of the source.  `α` stands
for `double` (and for the `float` entries of `convFilter`). -/
structure Parameters (α : Type) where
  listName : String
  apertureShape : Shape
  kron_fact : α
  subpix : Int
  r_min : α
  inflags : Int
  magzero : α
  minarea : α
  deblend_thresh : Int
  deblend_contrast : α
  clean : Int
  clean_param : α
  fwhm : α
  convFilter : List α
  maxSize : α
  minSize : α
  maxEllipse : α
  initialKeep : Int
  keepNum : α
  removeBrightest : α
  removeDimmest : α
  saturationLimit : α
  multiAlgorithm : MultiAlgo
  inParallel : Bool
  solverTimeLimit : Int
  minwidth : α
  maxwidth : α
  resort : Bool
  autoDownsample : Bool
  downsample : Int
  search_parity : Int
  search_radius : α
  logratio_tosolve : α
  logratio_tokeep : α
  logratio_totune : α

/-- The default member initialisers of `class Parameters`.  `log` is the C
library logarithm; `inflags` has no initialiser in the source, so its value is
an argument. -/
def Parameters.defaults {α : Type} [DivisionRing α] (log : α → α) (inflags : Int) :
    Parameters α where
  listName := "Default"
  apertureShape := .SHAPE_CIRCLE
  kron_fact := 2.5
  subpix := 5
  r_min := 3.5
  inflags := inflags
  magzero := 20
  minarea := 5
  deblend_thresh := 32
  deblend_contrast := 0.005
  clean := 1
  clean_param := 1
  fwhm := 2
  convFilter := [0.260856, 0.483068, 0.260856,
                 0.483068, 0.894573, 0.483068,
                 0.260856, 0.483068, 0.260856]
  maxSize := 0
  minSize := 0
  maxEllipse := 0
  initialKeep := 1000000
  keepNum := 0
  removeBrightest := 0
  removeDimmest := 0
  saturationLimit := 0
  multiAlgorithm := .NOT_MULTI
  inParallel := true
  solverTimeLimit := 600
  minwidth := 0.1
  maxwidth := 180
  resort := true
  autoDownsample := true
  downsample := 1
  search_parity := 2
  search_radius := 15
  logratio_tosolve := log 1e9
  logratio_tokeep := log 1e9
  logratio_totune := log 1e6

end SSolver

open SSolver

/-! ## Helpers of astrometry.net and of the C library -/

/-- Modelled from the spec: the helper `arcmin2deg` of astrometry.net
(`starutil.h`, not among the sources here), arc minutes to degrees, `x / 60`. -/
def arcmin2deg {α : Type} [DivisionRing α] (x : α) : α := x / 60

/-- Modelled from the spec: the helper `arcsec2deg` of astrometry.net
(`starutil.h`, not among the sources here), arc seconds to degrees, `x / 3600`. -/
def arcsec2deg {α : Type} [DivisionRing α] (x : α) : α := x / 3600

/-- Modelled from the spec: the helper `rad2deg` of astrometry.net
(`starutil.h`, not among the sources here), radians to degrees, `x * (180 / π)`;
`pi` is the value of `π` in `α`. -/
def rad2deg {α : Type} [DivisionRing α] (pi : α) (x : α) : α := x * (180 / pi)

/-! ## `class SextractorSolver` -/

/-- The types that `sextractorsolver.h` takes from `structuredefinitions.h`
(namespace `FITSImage`) and from Qt, together with the one member of them that
the header reads, `FITSImage::Statistic::height`. -/
structure FITSImage where
  Statistic : Type
  height : Statistic → Int
  Background : Type
  Star : Type
  Solution : Type
  wcs_point : Type
  QRect : Type

/-- The data members of `class SextractorSolver`, public ones first, in the
order of the source.  `double` is `α`, `QString` is `String`, a `QList` is a
`List`, and the two raw pointers are an optional address (`none` is `nullptr`). -/
structure SextractorSolver (α : Type) (T : FITSImage) where
  m_ProcessType : ProcessType
  m_ExtractorType : ExtractorType
  m_SolverType : SolverType
  logToFile : Bool
  logFileName : String
  astrometryLogLevel : logging_level
  m_SSLogLevel : SSolverLogLevel
  baseName : String
  basePath : String
  params : Parameters α
  indexFolderPaths : List String
  use_scale : Bool
  scalelo : α
  scalehi : α
  scaleunit : ScaleUnits
  use_position : Bool
  search_ra : α
  search_dec : α
  depthlo : Int
  depthhi : Int
  computingWCS : Bool
  computeWCSForStars : Bool
  useSubframe : Bool
  subframe : T.QRect
  hasSextracted : Bool
  hasSolved : Bool
  m_Statistics : T.Statistic
  m_ImageBuffer : Option Nat
  usingDownsampledImage : Bool
  background : T.Background
  stars : List T.Star
  solution : T.Solution
  hasWCS : Bool
  wasAborted : Bool
  cancelfn : String
  solvedfn : String
  isChildSolver : Bool
  wcs_coord : Option Nat

namespace SextractorSolver

variable {α : Type} {T : FITSImage}

/-- The default member initialisers of the class, applied to `raw`, which holds
the contents of the members that have none (`m_ProcessType`, `m_ExtractorType`,
`m_SolverType`, `scaleunit`, `subframe`, `m_Statistics`, `background`,
`solution` and `params.inflags`).  `log` is the C library logarithm and
`HUGE_VAL` the constant of `math.h`. -/
def init [DivisionRing α] (log : α → α) (HUGE_VAL : α) (raw : SextractorSolver α T) :
    SextractorSolver α T :=
  { raw with
    logToFile := false
    logFileName := ""
    astrometryLogLevel := .LOG_NONE
    m_SSLogLevel := .LOG_NORMAL
    baseName := ""
    basePath := ""
    params := Parameters.defaults log raw.params.inflags
    indexFolderPaths := []
    use_scale := false
    scalelo := 0
    scalehi := 0
    use_position := false
    search_ra := HUGE_VAL
    search_dec := HUGE_VAL
    depthlo := -1
    depthhi := -1
    computingWCS := false
    computeWCSForStars := false
    useSubframe := false
    hasSextracted := false
    hasSolved := false
    m_ImageBuffer := none
    usingDownsampledImage := false
    stars := []
    hasWCS := false
    wasAborted := false
    cancelfn := ""
    solvedfn := ""
    isChildSolver := false
    wcs_coord := none }

/-- The member `getScaleUnitString`, on the solver's own `scaleunit`. -/
def getScaleUnitString (self : SextractorSolver α T) : String :=
  match self.scaleunit with
  | .DEG_WIDTH => "degwidth"
  | .ARCMIN_WIDTH => "arcminwidth"
  | .ARCSEC_PER_PIX => "arcsecperpix"
  | .FOCAL_MM => "focalmm"

/-- The member `getBackground`. -/
def getBackground (self : SextractorSolver α T) : T.Background := self.background

/-- The member `getNumStarsFound`: the `int` that `stars.size()` returns. -/
def getNumStarsFound (self : SextractorSolver α T) : Int := self.stars.length

/-- The member `getStarList`. -/
def getStarList (self : SextractorSolver α T) : List T.Star := self.stars

/-- The member `setStarList`: the solver after `stars = starList`. -/
def setStarList (self : SextractorSolver α T) (starList : List T.Star) :
    SextractorSolver α T :=
  { self with stars := starList }

/-- The member `getSolution`. -/
def getSolution (self : SextractorSolver α T) : T.Solution := self.solution

/-- The member `hasWCSData`. -/
def hasWCSData (self : SextractorSolver α T) : Bool := self.hasWCS

/-- The member `solvingDone`. -/
def solvingDone (self : SextractorSolver α T) : Bool := self.hasSolved

/-- The member `sextractionDone`. -/
def sextractionDone (self : SextractorSolver α T) : Bool := self.hasSextracted

/-- The member `isCalculatingHFR`. -/
def isCalculatingHFR (self : SextractorSolver α T) : Bool :=
  self.m_ProcessType == .EXTRACT_WITH_HFR

/-- The member `convertToDegreeHeight`.  `atan` is the C library arc tangent and
`pi` the value of `π`; the `default` branch of the `switch` is not reached by
one of the four enumerators. -/
def convertToDegreeHeight [DivisionRing α] (atan : α → α) (pi : α)
    (self : SextractorSolver α T) (scale : α) : α :=
  match self.scaleunit with
  | .DEG_WIDTH => scale
  | .ARCMIN_WIDTH => arcmin2deg scale
  | .ARCSEC_PER_PIX => arcsec2deg scale * ((T.height self.m_Statistics : Int) : α)
  | .FOCAL_MM => rad2deg pi (atan (36 / (2 * scale)))

end SextractorSolver

/-! ## The result arbiter -/

/-- Modelled from the spec: what the `ResultArbiter` makes of a task that
reports `Solved` (section 4.4; the arbiter is not among the sources here,
which hold only the three thresholds it reads): the solution is accepted, or
the outcome is `NotSolved`, with the flag set when it is a near miss, a tuning
candidate. -/
inductive Arbitration where
  | Accepted
  | NotSolved (tuningCandidate : Bool)
  deriving DecidableEq, Repr

namespace ResultArbiter

variable {α : Type}

/-- Modelled from the spec: `ResultArbiter.accept` (section 4.4, not among the
sources here) on a `Solved` outcome with log-odds score `S`: accepted when
`S ≥ logratio_tosolve`. -/
def accept [LinearOrder α] (S : α) (p : Parameters α) : Bool :=
  decide (p.logratio_tosolve ≤ S)

/-- Modelled from the spec: the outcome after arbitration (section 4.4, not
among the sources here), clause by clause: a score below `logratio_totune` is
unconditionally `NotSolved`; otherwise an accepted score wins, and a score that
is not accepted, which then lies between `logratio_totune` and
`logratio_tosolve`, is `NotSolved` and a near miss, a tuning candidate. -/
def arbitrate [LinearOrder α] (S : α) (p : Parameters α) : Arbitration :=
  if S < p.logratio_totune then .NotSolved false
  else if accept S p then .Accepted
  else .NotSolved true

end ResultArbiter

/-! ## Concrete values, for evaluating the definitions -/

/-- The default parameters with the three log-odds thresholds replaced. -/
def sampleParameters (tosolve tokeep totune : ℚ) : Parameters ℚ :=
  { Parameters.defaults (fun x => x) 0 with
    logratio_tosolve := tosolve
    logratio_tokeep := tokeep
    logratio_totune := totune }

/-- An image model whose statistics are the image height alone. -/
def sampleImage : FITSImage where
  Statistic := Int
  height := fun h => h
  Background := Unit
  Star := Nat
  Solution := Unit
  wcs_point := Unit
  QRect := Unit

/-- A solver in the given scale unit, for an image of the given height. -/
def sampleSolver {α : Type} [DivisionRing α] (log : α → α) (scaleunit : ScaleUnits)
    (height : Int) : SextractorSolver α sampleImage where
  m_ProcessType := .SOLVE
  m_ExtractorType := .EXTRACTOR_INTERNAL
  m_SolverType := .SOLVER_STELLARSOLVER
  logToFile := false
  logFileName := ""
  astrometryLogLevel := .LOG_NONE
  m_SSLogLevel := .LOG_NORMAL
  baseName := ""
  basePath := ""
  params := Parameters.defaults log 0
  indexFolderPaths := []
  use_scale := true
  scalelo := 1
  scalehi := 2
  scaleunit := scaleunit
  use_position := false
  search_ra := 0
  search_dec := 0
  depthlo := -1
  depthhi := -1
  computingWCS := false
  computeWCSForStars := false
  useSubframe := false
  subframe := ()
  hasSextracted := false
  hasSolved := false
  m_Statistics := height
  m_ImageBuffer := none
  usingDownsampledImage := false
  background := ()
  stars := []
  solution := ()
  hasWCS := false
  wasAborted := false
  cancelfn := ""
  solvedfn := ""
  isChildSolver := false
  wcs_coord := none

/-! ## Bounds on the exponential function -/

/-- Shared bound: `exp 20.7` is below `10^9`. -/
theorem exp_207_lt : Real.exp (20.7 : ℝ) < 1e9 := by
  have h10 : Real.exp (20.7 : ℝ) ^ 10 = Real.exp 1 ^ 207 := by
    rw [← Real.exp_nat_mul, ← Real.exp_nat_mul]
    norm_num
  have hlt : Real.exp 1 ^ 207 < (1e9 : ℝ) ^ 10 := by
    calc Real.exp 1 ^ 207 < (2.7182818286 : ℝ) ^ 207 :=
          pow_lt_pow_left₀ Real.exp_one_lt_d9 (Real.exp_pos 1).le (by norm_num)
      _ < (1e9 : ℝ) ^ 10 := by norm_num
  rw [← h10] at hlt
  exact lt_of_pow_lt_pow_left₀ 10 (by norm_num) hlt

/-- Shared bound: `10^9` is below `exp 20.8`. -/
theorem lt_exp_208 : (1e9 : ℝ) < Real.exp (20.8 : ℝ) := by
  have h10 : Real.exp (20.8 : ℝ) ^ 10 = Real.exp 1 ^ 208 := by
    rw [← Real.exp_nat_mul, ← Real.exp_nat_mul]
    norm_num
  have hlt : (1e9 : ℝ) ^ 10 < Real.exp 1 ^ 208 := by
    calc (1e9 : ℝ) ^ 10 < (2.7182818283 : ℝ) ^ 208 := by norm_num
      _ < Real.exp 1 ^ 208 :=
          pow_lt_pow_left₀ Real.exp_one_gt_d9 (by norm_num) (by norm_num)
  rw [← h10] at hlt
  exact lt_of_pow_lt_pow_left₀ 10 (Real.exp_pos _).le hlt

/-- The default to-solve threshold lies strictly between 20.7 and 20.8. -/
theorem log_1e9_bounds : (20.7 : ℝ) < Real.log 1e9 ∧ Real.log 1e9 < (20.8 : ℝ) := by
  constructor
  · rw [Real.lt_log_iff_exp_lt (by norm_num)]
    exact exp_207_lt
  · rw [Real.log_lt_iff_lt_exp (by norm_num)]
    exact lt_exp_208

/-! ## The result arbiter: thresholds -/

/-- C3: for every log-odds score `S` and every `Parameters` value, `accept`
returns true exactly when `S ≥ logratio_tosolve`; for `S` in
`[logratio_totune, logratio_tosolve)` the outcome is `NotSolved` and flagged as
a tuning candidate; and for `S < logratio_totune` it is a plain `NotSolved`. -/
theorem ResultArbiter.arbitrate_thresholds {α : Type} [LinearOrder α] (S : α)
    (p : Parameters α) :
    (ResultArbiter.accept S p = true ↔ S ≥ p.logratio_tosolve) ∧
    (p.logratio_totune ≤ S → S < p.logratio_tosolve →
      ResultArbiter.accept S p = false ∧
      ResultArbiter.arbitrate S p = .NotSolved true) ∧
    (S < p.logratio_totune →
      ResultArbiter.arbitrate S p = .NotSolved false) := by
  refine ⟨by simp [ResultArbiter.accept], ?_, ?_⟩
  · intro htune hsolve
    have hacc : ResultArbiter.accept S p = false := by
      simp [ResultArbiter.accept, not_le.mpr hsolve]
    refine ⟨hacc, ?_⟩
    simp [ResultArbiter.arbitrate, hacc, not_lt.mpr htune]
  · intro htune
    simp [ResultArbiter.arbitrate, htune]

/-- C3, witness: with the thresholds `20 ≥ 20 ≥ 13`, the score 15 lies in the
tuning band and is a tuning candidate, and the score 12 lies below
`logratio_totune` and is a plain `NotSolved`. -/
theorem ResultArbiter.arbitrate_thresholds_witness :
    ((sampleParameters 20 20 13).logratio_totune ≤ 15 ∧
      15 < (sampleParameters 20 20 13).logratio_tosolve ∧
      ResultArbiter.accept 15 (sampleParameters 20 20 13) = false ∧
      ResultArbiter.arbitrate 15 (sampleParameters 20 20 13) = .NotSolved true) ∧
    (12 < (sampleParameters 20 20 13).logratio_totune ∧
      ResultArbiter.arbitrate 12 (sampleParameters 20 20 13) = .NotSolved false) :=
  ⟨⟨by decide, by decide,
    (ResultArbiter.arbitrate_thresholds 15 (sampleParameters 20 20 13)).2.1
      (by decide) (by decide)⟩,
   ⟨by decide,
    (ResultArbiter.arbitrate_thresholds 12 (sampleParameters 20 20 13)).2.2
      (by decide)⟩⟩

/-- With the thresholds in their expected order,
`logratio_totune ≤ logratio_tosolve`, the outcome is `Accepted` exactly when
`accept` returns true. -/
theorem ResultArbiter.arbitrate_accepted_iff {α : Type} [LinearOrder α] (S : α)
    (p : Parameters α) (hord : p.logratio_totune ≤ p.logratio_tosolve) :
    ResultArbiter.arbitrate S p = .Accepted ↔ ResultArbiter.accept S p = true := by
  unfold ResultArbiter.arbitrate
  by_cases htune : S < p.logratio_totune
  · have hacc : ResultArbiter.accept S p = false := by
      simp [ResultArbiter.accept, not_le.mpr (lt_of_lt_of_le htune hord)]
    simp [htune, hacc]
  · by_cases hacc : ResultArbiter.accept S p = true
    · simp [htune, hacc]
    · simp [htune, hacc]

/-! ## The default parameters -/

/-- C4: the default thresholds are in the expected order,
`logratio_tosolve ≥ logratio_tokeep ≥ logratio_totune`, over the real natural
logarithm, and the tuning band is not empty:
`logratio_totune < logratio_tosolve`. -/
theorem Parameters.defaults_threshold_order (inflags : Int) :
    (Parameters.defaults Real.log inflags).logratio_tosolve ≥
      (Parameters.defaults Real.log inflags).logratio_tokeep ∧
    (Parameters.defaults Real.log inflags).logratio_tokeep ≥
      (Parameters.defaults Real.log inflags).logratio_totune ∧
    (Parameters.defaults Real.log inflags).logratio_totune <
      (Parameters.defaults Real.log inflags).logratio_tosolve := by
  have h : Real.log 1e6 < Real.log 1e9 := Real.log_lt_log (by norm_num) (by norm_num)
  exact ⟨le_refl _, h.le, h⟩

/-- C5: the default to-solve threshold `log(1e9)`, over the real natural
logarithm, lies strictly between 20.7 and 20.8, so the score 25 meets the
acceptance condition `S ≥ logratio_tosolve` and the score 20 does not. -/
theorem Parameters.defaults_tosolve_bounds (inflags : Int) :
    (Parameters.defaults Real.log inflags).logratio_tosolve = Real.log 1e9 ∧
    (20.7 : ℝ) < (Parameters.defaults Real.log inflags).logratio_tosolve ∧
    (Parameters.defaults Real.log inflags).logratio_tosolve < (20.8 : ℝ) ∧
    (25 : ℝ) ≥ (Parameters.defaults Real.log inflags).logratio_tosolve ∧
    ¬ ((20 : ℝ) ≥ (Parameters.defaults Real.log inflags).logratio_tosolve) := by
  have hlo : (20.7 : ℝ) < Real.log 1e9 := log_1e9_bounds.1
  have hhi : Real.log 1e9 < (20.8 : ℝ) := log_1e9_bounds.2
  refine ⟨rfl, hlo, hhi, ?_, ?_⟩
  · show Real.log 1e9 ≤ 25
    linarith
  · show ¬ (Real.log 1e9 ≤ 20)
    intro h
    norm_num at hlo
    linarith

/-- C6, at the failing input: for `MULTI_AUTO` the `switch` has no case, and the
`default` branch returns the empty string. -/
theorem SSolver.getMultiAlgoString_MULTI_AUTO :
    getMultiAlgoString .MULTI_AUTO = "" ∧ (getMultiAlgoString .MULTI_AUTO).length = 0 := by
  decide

/-- The three algorithms that the `switch` names get non-empty strings, and no
two of the four values get the same string. -/
theorem SSolver.getMultiAlgoString_injective :
    getMultiAlgoString .NOT_MULTI ≠ "" ∧ getMultiAlgoString .MULTI_SCALES ≠ "" ∧
    getMultiAlgoString .MULTI_DEPTHS ≠ "" ∧
    ∀ a b : MultiAlgo, getMultiAlgoString a = getMultiAlgoString b → a = b := by
  refine ⟨by decide, by decide, by decide, ?_⟩
  intro a b
  cases a <;> cases b <;> decide

/-! ## The solver: defaults, star list, scale conversion -/

/-- C7: in a solver with default-initialised members the scale hint is absent
(`use_scale = false`, `scalelo = scalehi = 0`), and the default width range is
`[minwidth, maxwidth] = [0.1, 180]` degrees, with
`0 < minwidth < maxwidth ≤ 180`. -/
theorem SextractorSolver.init_scale_hint_absent {α : Type} [LinearOrderedField α]
    {T : FITSImage} (log : α → α) (HUGE_VAL : α) (raw : SextractorSolver α T) :
    (SextractorSolver.init log HUGE_VAL raw).use_scale = false ∧
    (SextractorSolver.init log HUGE_VAL raw).scalelo = 0 ∧
    (SextractorSolver.init log HUGE_VAL raw).scalehi = 0 ∧
    (SextractorSolver.init log HUGE_VAL raw).params.minwidth = 0.1 ∧
    (SextractorSolver.init log HUGE_VAL raw).params.maxwidth = 180 ∧
    0 < (SextractorSolver.init log HUGE_VAL raw).params.minwidth ∧
    (SextractorSolver.init log HUGE_VAL raw).params.minwidth <
      (SextractorSolver.init log HUGE_VAL raw).params.maxwidth ∧
    (SextractorSolver.init log HUGE_VAL raw).params.maxwidth ≤ 180 := by
  refine ⟨rfl, rfl, rfl, rfl, rfl, ?_, ?_, ?_⟩
  · show (0 : α) < 0.1
    norm_num
  · show (0.1 : α) < 180
    norm_num
  · show (180 : α) ≤ 180
    exact le_refl _

/-- C8: after `setStarList(L)`, `getStarList()` returns `L` and
`getNumStarsFound()` is the length of `L`, and every other member of the solver
is unchanged. -/
theorem SextractorSolver.setStarList_roundtrip {α : Type} {T : FITSImage}
    (self : SextractorSolver α T) (L : List T.Star) :
    (self.setStarList L).getStarList = L ∧
    (self.setStarList L).getNumStarsFound = L.length ∧
    (self.setStarList L).getBackground = self.getBackground ∧
    (self.setStarList L).getSolution = self.getSolution ∧
    (self.setStarList L).sextractionDone = self.sextractionDone ∧
    (self.setStarList L).solvingDone = self.solvingDone ∧
    (self.setStarList L).hasWCSData = self.hasWCSData ∧
    (self.setStarList L).m_ProcessType = self.m_ProcessType ∧
    (self.setStarList L).m_ExtractorType = self.m_ExtractorType ∧
    (self.setStarList L).m_SolverType = self.m_SolverType ∧
    (self.setStarList L).logToFile = self.logToFile ∧
    (self.setStarList L).logFileName = self.logFileName ∧
    (self.setStarList L).astrometryLogLevel = self.astrometryLogLevel ∧
    (self.setStarList L).m_SSLogLevel = self.m_SSLogLevel ∧
    (self.setStarList L).baseName = self.baseName ∧
    (self.setStarList L).basePath = self.basePath ∧
    (self.setStarList L).params = self.params ∧
    (self.setStarList L).indexFolderPaths = self.indexFolderPaths ∧
    (self.setStarList L).use_scale = self.use_scale ∧
    (self.setStarList L).scalelo = self.scalelo ∧
    (self.setStarList L).scalehi = self.scalehi ∧
    (self.setStarList L).scaleunit = self.scaleunit ∧
    (self.setStarList L).use_position = self.use_position ∧
    (self.setStarList L).search_ra = self.search_ra ∧
    (self.setStarList L).search_dec = self.search_dec ∧
    (self.setStarList L).depthlo = self.depthlo ∧
    (self.setStarList L).depthhi = self.depthhi ∧
    (self.setStarList L).computingWCS = self.computingWCS ∧
    (self.setStarList L).computeWCSForStars = self.computeWCSForStars ∧
    (self.setStarList L).useSubframe = self.useSubframe ∧
    (self.setStarList L).subframe = self.subframe ∧
    (self.setStarList L).hasSextracted = self.hasSextracted ∧
    (self.setStarList L).hasSolved = self.hasSolved ∧
    (self.setStarList L).m_Statistics = self.m_Statistics ∧
    (self.setStarList L).m_ImageBuffer = self.m_ImageBuffer ∧
    (self.setStarList L).usingDownsampledImage = self.usingDownsampledImage ∧
    (self.setStarList L).background = self.background ∧
    (self.setStarList L).solution = self.solution ∧
    (self.setStarList L).hasWCS = self.hasWCS ∧
    (self.setStarList L).wasAborted = self.wasAborted ∧
    (self.setStarList L).cancelfn = self.cancelfn ∧
    (self.setStarList L).solvedfn = self.solvedfn ∧
    (self.setStarList L).isChildSolver = self.isChildSolver ∧
    (self.setStarList L).wcs_coord = self.wcs_coord := by
  refine ⟨rfl, rfl, rfl, rfl, rfl, rfl, rfl, rfl, rfl, rfl, rfl, rfl, rfl, rfl, rfl, rfl, rfl,
    rfl, rfl, rfl, rfl, rfl, rfl, rfl, rfl, rfl, rfl, rfl, rfl, rfl, rfl, rfl, rfl, rfl, rfl,
    rfl, rfl, rfl, rfl, rfl, rfl, rfl, rfl, rfl⟩

/-- C9: `convertToDegreeHeight(s)` is `s` for `DEG_WIDTH`, `s / 60` for
`ARCMIN_WIDTH` and `(s / 3600) * h` for `ARCSEC_PER_PIX`, `h` being the image
height; so for these three units and `h ≥ 0` the conversion keeps the order of
a scale hint: `lo ≤ hi` gives
`convertToDegreeHeight(lo) ≤ convertToDegreeHeight(hi)`. -/
theorem SextractorSolver.convertToDegreeHeight_units {α : Type} [LinearOrderedField α]
    {T : FITSImage} (atan : α → α) (pi : α) (self : SextractorSolver α T) (s lo hi : α) :
    (self.scaleunit = .DEG_WIDTH → self.convertToDegreeHeight atan pi s = s) ∧
    (self.scaleunit = .ARCMIN_WIDTH → self.convertToDegreeHeight atan pi s = s / 60) ∧
    (self.scaleunit = .ARCSEC_PER_PIX →
      self.convertToDegreeHeight atan pi s =
        (s / 3600) * ((T.height self.m_Statistics : Int) : α)) ∧
    (self.scaleunit ≠ .FOCAL_MM → 0 ≤ T.height self.m_Statistics → lo ≤ hi →
      self.convertToDegreeHeight atan pi lo ≤ self.convertToDegreeHeight atan pi hi) := by
  refine ⟨?_, ?_, ?_, ?_⟩
  · intro hu
    simp [SextractorSolver.convertToDegreeHeight, hu]
  · intro hu
    simp [SextractorSolver.convertToDegreeHeight, hu, arcmin2deg]
  · intro hu
    simp [SextractorSolver.convertToDegreeHeight, hu, arcsec2deg]
  · intro hu hh hle
    have hcast : (0 : α) ≤ ((T.height self.m_Statistics : Int) : α) := by
      exact_mod_cast hh
    unfold SextractorSolver.convertToDegreeHeight
    cases hunit : self.scaleunit with
    | DEG_WIDTH => exact hle
    | ARCMIN_WIDTH =>
      show lo / 60 ≤ hi / 60
      exact div_le_div_of_nonneg_right hle (by norm_num)
    | ARCSEC_PER_PIX =>
      show lo / 3600 * _ ≤ hi / 3600 * _
      exact mul_le_mul_of_nonneg_right
        (div_le_div_of_nonneg_right hle (by norm_num)) hcast
    | FOCAL_MM => exact absurd hunit hu

/-- C9, witness: a width of 5 degrees converts to 5, a width of 120 arc minutes
to `120 / 60`, and in arc seconds per pixel on an image 1000 pixels high the
scale 3600 converts to `3600 / 3600 * 1000` and the hint `[1, 2]` to an ordered
pair. -/
theorem SextractorSolver.convertToDegreeHeight_units_witness :
    (sampleSolver Real.log .DEG_WIDTH 1000).convertToDegreeHeight
        Real.arctan Real.pi 5 = 5 ∧
    (sampleSolver Real.log .ARCMIN_WIDTH 1000).convertToDegreeHeight
        Real.arctan Real.pi 120 = 120 / 60 ∧
    (sampleSolver Real.log .ARCSEC_PER_PIX 1000).convertToDegreeHeight
        Real.arctan Real.pi 3600 = 3600 / 3600 * ((1000 : Int) : ℝ) ∧
    ((sampleSolver Real.log .ARCSEC_PER_PIX 1000).scaleunit ≠ .FOCAL_MM ∧
      (0 : Int) ≤ 1000 ∧ (1 : ℝ) ≤ 2 ∧
      (sampleSolver Real.log .ARCSEC_PER_PIX 1000).convertToDegreeHeight
          Real.arctan Real.pi 1 ≤
        (sampleSolver Real.log .ARCSEC_PER_PIX 1000).convertToDegreeHeight
          Real.arctan Real.pi 2) :=
  ⟨(SextractorSolver.convertToDegreeHeight_units Real.arctan Real.pi
      (sampleSolver Real.log .DEG_WIDTH 1000) 5 1 2).1 rfl,
   (SextractorSolver.convertToDegreeHeight_units Real.arctan Real.pi
      (sampleSolver Real.log .ARCMIN_WIDTH 1000) 120 1 2).2.1 rfl,
   (SextractorSolver.convertToDegreeHeight_units Real.arctan Real.pi
      (sampleSolver Real.log .ARCSEC_PER_PIX 1000) 3600 1 2).2.2.1 rfl,
   by decide, by decide, by norm_num,
   (SextractorSolver.convertToDegreeHeight_units Real.arctan Real.pi
      (sampleSolver Real.log .ARCSEC_PER_PIX 1000) 0 1 2).2.2.2
      (by decide) (by decide) (by norm_num)⟩

/-- C10: for `FOCAL_MM` and a focal length `s > 0`,
`convertToDegreeHeight(s) = rad2deg(atan(36 / (2 s)))` lies strictly between 0
and 90 degrees, and the conversion is strictly decreasing: `0 < lo < hi` gives
`convertToDegreeHeight(lo) > convertToDegreeHeight(hi)`. -/
theorem SextractorSolver.convertToDegreeHeight_focal {T : FITSImage}
    (self : SextractorSolver ℝ T) (hu : self.scaleunit = .FOCAL_MM) (s lo hi : ℝ) :
    (0 < s →
      self.convertToDegreeHeight Real.arctan Real.pi s =
        rad2deg Real.pi (Real.arctan (36 / (2 * s))) ∧
      0 < self.convertToDegreeHeight Real.arctan Real.pi s ∧
      self.convertToDegreeHeight Real.arctan Real.pi s < 90) ∧
    (0 < lo → lo < hi →
      self.convertToDegreeHeight Real.arctan Real.pi lo >
        self.convertToDegreeHeight Real.arctan Real.pi hi) := by
  have hpi : 0 < Real.pi := Real.pi_pos
  have hk : 0 < 180 / Real.pi := div_pos (by norm_num) hpi
  have heq : ∀ x : ℝ, self.convertToDegreeHeight Real.arctan Real.pi x =
      Real.arctan (36 / (2 * x)) * (180 / Real.pi) := by
    intro x
    simp [SextractorSolver.convertToDegreeHeight, hu, rad2deg]
  constructor
  · intro hs
    have harg : 0 < 36 / (2 * s) := by positivity
    refine ⟨by rw [heq]; rfl, ?_, ?_⟩
    · rw [heq]
      exact mul_pos (by rw [← Real.arctan_zero]; exact Real.arctan_strictMono harg) hk
    · rw [heq]
      have h1 : Real.arctan (36 / (2 * s)) < Real.pi / 2 := Real.arctan_lt_pi_div_two _
      have h2 : Real.pi / 2 * (180 / Real.pi) = 90 := by
        field_simp
        ring
      calc Real.arctan (36 / (2 * s)) * (180 / Real.pi)
          < Real.pi / 2 * (180 / Real.pi) := mul_lt_mul_of_pos_right h1 hk
        _ = 90 := h2
  · intro hlo hlt
    rw [heq, heq]
    have hdiv : 36 / (2 * hi) < 36 / (2 * lo) := by
      apply div_lt_div_of_pos_left (by norm_num) (by positivity)
      linarith
    exact mul_lt_mul_of_pos_right (Real.arctan_strictMono hdiv) hk

/-- C10, witness: a focal length of 1 mm converts to a height strictly between 0
and 90 degrees, and a focal length of 2 mm to a smaller height than that. -/
theorem SextractorSolver.convertToDegreeHeight_focal_witness :
    (sampleSolver Real.log .FOCAL_MM 1000).scaleunit = .FOCAL_MM ∧ (0 : ℝ) < 1 ∧
    (1 : ℝ) < 2 ∧
    0 < (sampleSolver Real.log .FOCAL_MM 1000).convertToDegreeHeight
      Real.arctan Real.pi 1 ∧
    (sampleSolver Real.log .FOCAL_MM 1000).convertToDegreeHeight
      Real.arctan Real.pi 1 < 90 ∧
    (sampleSolver Real.log .FOCAL_MM 1000).convertToDegreeHeight Real.arctan Real.pi 1 >
      (sampleSolver Real.log .FOCAL_MM 1000).convertToDegreeHeight Real.arctan Real.pi 2 :=
  ⟨rfl, by norm_num, by norm_num,
   ((SextractorSolver.convertToDegreeHeight_focal (sampleSolver Real.log .FOCAL_MM 1000) rfl
      1 1 2).1 (by norm_num)).2.1,
   ((SextractorSolver.convertToDegreeHeight_focal (sampleSolver Real.log .FOCAL_MM 1000) rfl
      1 1 2).1 (by norm_num)).2.2,
   (SextractorSolver.convertToDegreeHeight_focal (sampleSolver Real.log .FOCAL_MM 1000) rfl
      1 1 2).2 (by norm_num) (by norm_num)⟩

/-! ## The scale unit and command strings -/

/-- C11: on a solver whose `scaleunit` is `u`, the member `getScaleUnitString()`
returns the same string as the free function `getScaleUnitString(u)`, which is
the astrometry.net keyword `degwidth`, `arcminwidth`, `arcsecperpix` or
`focalmm`, and these four strings are pairwise distinct. -/
theorem SextractorSolver.getScaleUnitString_agrees {α : Type} {T : FITSImage}
    (self : SextractorSolver α T) (u : ScaleUnits) (h : self.scaleunit = u) :
    SextractorSolver.getScaleUnitString self = SSolver.getScaleUnitString u ∧
    SSolver.getScaleUnitString .DEG_WIDTH = "degwidth" ∧
    SSolver.getScaleUnitString .ARCMIN_WIDTH = "arcminwidth" ∧
    SSolver.getScaleUnitString .ARCSEC_PER_PIX = "arcsecperpix" ∧
    SSolver.getScaleUnitString .FOCAL_MM = "focalmm" ∧
    (∀ a b : ScaleUnits,
      SSolver.getScaleUnitString a = SSolver.getScaleUnitString b → a = b) := by
  refine ⟨?_, rfl, rfl, rfl, rfl, ?_⟩
  · subst h
    unfold SextractorSolver.getScaleUnitString SSolver.getScaleUnitString
    cases self.scaleunit <;> rfl
  · intro a b
    cases a <;> cases b <;> decide

/-- C11, witness: a solver in focal length units answers `focalmm`, as the free
function does for `FOCAL_MM`. -/
theorem SextractorSolver.getScaleUnitString_agrees_witness :
    (sampleSolver (fun x : ℚ => x) .FOCAL_MM 1000).scaleunit = .FOCAL_MM ∧
    SextractorSolver.getScaleUnitString (sampleSolver (fun x : ℚ => x) .FOCAL_MM 1000) =
      SSolver.getScaleUnitString .FOCAL_MM ∧
    SextractorSolver.getScaleUnitString (sampleSolver (fun x : ℚ => x) .FOCAL_MM 1000) =
      "focalmm" :=
  ⟨rfl,
   (SextractorSolver.getScaleUnitString_agrees
      (sampleSolver (fun x : ℚ => x) .FOCAL_MM 1000) .FOCAL_MM rfl).1,
   by decide⟩

/-- C12: two calls of `getCommandString` return the same string exactly when
the extractor types agree, the process types agree and, when the process is
`SOLVE`, the solver types agree too; for `EXTRACT` and `EXTRACT_WITH_HFR` the
result is the same for every solver type. -/
theorem SSolver.getCommandString_eq_iff (p p' : ProcessType) (e e' : ExtractorType)
    (s s' : SolverType) :
    (getCommandString p e s = getCommandString p' e' s' ↔
      e = e' ∧ p = p' ∧ (p ≠ .SOLVE ∨ s = s')) ∧
    getCommandString .EXTRACT e s = getCommandString .EXTRACT e s' ∧
    getCommandString .EXTRACT_WITH_HFR e s = getCommandString .EXTRACT_WITH_HFR e s' := by
  refine ⟨?_, ?_, ?_⟩
  · cases p <;> cases p' <;> cases e <;> cases e' <;> cases s <;> cases s' <;> decide
  · cases e <;> rfl
  · cases e <;> rfl
